import Mathlib

/-!
Verification of the decommissioning agents of `infra-decom-logs`.

The definitions below are a shallow embedding of the Python agents under
`src/agents/`.  External collaborators (the AWS API calls) are passed in as
explicit arguments: a call that can raise is modelled as an `Except` value
(or a function producing one), and each definition mirrors the control flow
of the Python function it is named after.  Line references name the Python
sources.
-/

/-! ## String helpers

Python string operations used by the sources: `str.lower` (restricted to the
ASCII range, which covers every pattern the sources test), substring
containment (`pat in s`), `str.startswith`, and the count scraping
`re.findall(r"\d+", line)` followed by `int(numbers[0])`. -/

/-- ASCII lowercasing of one character, the fragment of `str.lower` exercised
by the sources (all compared patterns are ASCII). -/
def lower_char (c : Char) : Char :=
  if 65 ≤ c.toNat ∧ c.toNat ≤ 90 then Char.ofNat (c.toNat + 32) else c

/-- ASCII `str.lower` of a string, as a character list. -/
def lower_chars (s : String) : List Char := s.data.map lower_char

/-- Python `s.startswith(pat)` on character lists. -/
def starts_with_chars : List Char → List Char → Bool
  | [], _ => true
  | _ :: _, [] => false
  | p :: ps, c :: cs => p == c && starts_with_chars ps cs

/-- Python `pat in s` (substring containment) on character lists. -/
def contains_chars (pat : List Char) : List Char → Bool
  | [] => pat.isEmpty
  | c :: cs => starts_with_chars pat (c :: cs) || contains_chars pat cs

/-- Case-insensitive containment `pat in line.lower()` for an ASCII pattern. -/
def contains_lower (pat : String) (line : String) : Bool :=
  contains_chars pat.data (lower_chars line)

/-- Case-sensitive containment `pat in line`. -/
def contains_exact (pat : String) (line : String) : Bool :=
  contains_chars pat.data line.data

/-- Numeric value of a digit run, `int` applied to the matched digits. -/
def digits_to_nat (ds : List Char) : Nat :=
  ds.foldl (fun n c => 10 * n + (c.toNat - 48)) 0

/-- First maximal digit run of a line: `re.findall` for one-or-more digits
followed by `int(numbers[0])`; `none` when the line has no digit. -/
def first_number : List Char → Option Nat
  | [] => none
  | c :: cs =>
    if c.isDigit then some (digits_to_nat (c :: cs.takeWhile Char.isDigit))
    else first_number cs

/-! ## Tag model and preservation classifier

From `src/agents/sweeper-account/account_sweeper_agent.py`.  A tag is a
Python dict with optional `Key` and `Value` entries (`tag.get` returns `None`
when absent), hence the `Option String` fields. -/

/-- One resource tag as handled by the sweeper: a dict whose `Key` and
`Value` entries may be absent. -/
structure Tag where
  key : Option String
  value : Option String
deriving DecidableEq

/-- Constant `PRESERVE_TAG_KEY` (account_sweeper_agent.py line 16). -/
def PRESERVE_TAG_KEY : String := "decom:preserve"

/-- Constant `PRESERVE_TAG_VALUE` (account_sweeper_agent.py line 17). -/
def PRESERVE_TAG_VALUE : String := "true"

/-- The tag the sweeper fabricates when tag lookup fails
(account_sweeper_agent.py line 98). -/
def preserve_tag : Tag :=
  { key := some PRESERVE_TAG_KEY, value := some PRESERVE_TAG_VALUE }

/-- `AccountSweeperAgent.is_resource_preserved` (lines 62-70): true when some
tag has `Key` equal to the preserve key and `Value` equal to the preserve
value.  The `resource_id` argument is accepted and ignored, as in the source. -/
def is_resource_preserved (resource_id : String) (tags : List Tag) : Bool :=
  if tags.isEmpty then false
  else tags.any fun tag =>
    tag.key == some PRESERVE_TAG_KEY && tag.value == some PRESERVE_TAG_VALUE

/-- The resource types for which `get_resource_tags` dispatches to a tagging
API call (lines 76-92); any other type returns an empty tag list (line 94). -/
def SWEEPER_TAGGED_TYPES : List String :=
  ["s3", "ec2", "cloudformation", "lambda", "rds"]

/-- `AccountSweeperAgent.get_resource_tags` (lines 72-98).  The underlying
service call is the external collaborator, passed as an `Except` value: for a
dispatched resource type a raised exception is caught and replaced by the
fabricated preserve tag (the safety default of line 98); for any other type
the function returns an empty list without calling the service. -/
def get_resource_tags (resource_type : String)
    (lookup : Except String (List Tag)) : List Tag :=
  if resource_type ∈ SWEEPER_TAGGED_TYPES then
    match lookup with
    | Except.ok tags => tags
    | Except.error _ => [preserve_tag]
  else []

/-- Outcome bucket of one sweeper resource, mirroring the keys of
`deletion_log.deletions` used by the per-resource branches. -/
inductive SweepOutcome where
  | skipped_preserved
  | successful
  | failed (error : String)
deriving DecidableEq

/-- Result of processing one resource in the sweeper: the recorded outcome
and the delete calls issued against the provider. -/
structure SweepStep where
  outcome : SweepOutcome
  delete_calls : List String
deriving DecidableEq

def svc_s3 : String := "s3"

/-- Body of the per-bucket loop of `AccountSweeperAgent.delete_s3_buckets`
(lines 109-168): fetch tags (via `get_resource_tags` with the s3 dispatch),
skip as preserved when tagged, otherwise in dry-run record success without
calling the provider, and in live mode issue the empty-and-delete sequence,
whose combined outcome is the `delete_result` argument (the except handler of
lines 161-168 records any raised error as failed). -/
def sweep_s3_bucket (dry_run : Bool) (bucket_name : String)
    (lookup : Except String (List Tag))
    (delete_result : Except String Unit) : SweepStep :=
  let tags := get_resource_tags svc_s3 lookup
  if is_resource_preserved bucket_name tags then
    { outcome := SweepOutcome.skipped_preserved, delete_calls := [] }
  else if dry_run then
    { outcome := SweepOutcome.successful, delete_calls := [] }
  else
    match delete_result with
    | Except.ok _ =>
      { outcome := SweepOutcome.successful, delete_calls := [bucket_name] }
    | Except.error e =>
      { outcome := SweepOutcome.failed e, delete_calls := [bucket_name] }

/-- Claim C10: the preservation-tag check is an exact-match predicate —
`is_resource_preserved` returns true iff the tag list contains an entry whose
`Key` equals the preserve key and whose `Value` equals the preserve value; an
empty list, or a tag with the key but a different value, yields false. -/
theorem is_resource_preserved_exact_match (resource_id : String)
    (tags : List Tag) :
    is_resource_preserved resource_id tags = true ↔
      ∃ t ∈ tags, t.key = some PRESERVE_TAG_KEY ∧
        t.value = some PRESERVE_TAG_VALUE := by
  cases tags with
  | nil => simp [is_resource_preserved]
  | cons a l =>
    simp [is_resource_preserved, List.any_eq_true, Bool.and_eq_true,
      beq_iff_eq]

/-- Claim C1: if tag retrieval raises, the resource is classified Preserve —
`get_resource_tags` yields a tag list that `is_resource_preserved` accepts,
for every dispatched resource type, and the sweeper bucket step records
`skipped_preserved` and issues no delete call. -/
theorem tag_lookup_error_defaults_to_preserve
    (resource_type resource_id bucket_name e : String) (dry_run : Bool)
    (delete_result : Except String Unit)
    (h : resource_type ∈ SWEEPER_TAGGED_TYPES) :
    is_resource_preserved resource_id
        (get_resource_tags resource_type (Except.error e)) = true ∧
    sweep_s3_bucket dry_run bucket_name (Except.error e) delete_result =
      { outcome := SweepOutcome.skipped_preserved, delete_calls := [] } := by
  constructor
  · unfold get_resource_tags
    rw [if_pos h]
    rfl
  · rfl

def kTypeEc2 : String := "ec2"
def kRid : String := "vol-1"
def kBucketA : String := "bucket-a"
def kBoom : String := "boom"

/-- Witness for C1 at a concrete input: resource type ec2, a concrete
resource id and error message. -/
theorem tag_lookup_error_defaults_to_preserve_witness :
    kTypeEc2 ∈ SWEEPER_TAGGED_TYPES ∧
    (is_resource_preserved kRid
        (get_resource_tags kTypeEc2 (Except.error kBoom)) = true ∧
      sweep_s3_bucket true kBucketA (Except.error kBoom) (Except.ok ()) =
        { outcome := SweepOutcome.skipped_preserved, delete_calls := [] }) :=
  ⟨by decide,
   tag_lookup_error_defaults_to_preserve kTypeEc2 kRid kBucketA kBoom true
     (Except.ok ()) (by decide)⟩

/-! ## Storage destruction agent

From `src/agents/closure/storage_destruction_agent.py`.  Unlike the sweeper,
this closure-phase agent performs no tag lookup at all: it lists every bucket
of the account and destroys each one. -/

/-- One bucket as seen by the storage agent: its name from `list_buckets`,
plus the tags carried by the remote resource.  The agent never reads the
tags; they are carried in the model only so that preservation of the remote
resource can be stated. -/
structure SBucket where
  name : String
  tags : List Tag
deriving DecidableEq

/-- Accumulated state of `StorageDestructionAgent.destroy_s3_buckets`: the
`destroyed` and `failed` journal entries (resource ids, with the error string
for failures), the bucket names passed to the `delete_bucket` primitive, and
the lines printed to stdout. -/
structure StorageS3Result where
  destroyed : List String
  failed : List (String × String)
  delete_calls : List String
  stdout : List String
deriving DecidableEq

/-- Per-bucket loop of `StorageDestructionAgent.destroy_s3_buckets`
(lines 46-129).  The policy/lifecycle/emptying sub-steps swallow their own
errors (lines 51-109), so `delete_bucket` (line 112) is reached for every
bucket; `delete_result` is that primitive.  On success the bucket is printed
as DESTROYED and journalled in `destroyed`; a raised error is printed as
FAILED and journalled in `failed`.  No preservation check occurs anywhere in
this loop. -/
def storage_process_buckets (delete_result : String → Except String Unit) :
    List SBucket → StorageS3Result
  | [] => { destroyed := [], failed := [], delete_calls := [], stdout := [] }
  | b :: rest =>
    let tail := storage_process_buckets delete_result rest
    match delete_result b.name with
    | Except.ok _ =>
      { destroyed := b.name :: tail.destroyed
        failed := tail.failed
        delete_calls := b.name :: tail.delete_calls
        stdout := ("  🗑️  Destroying bucket: " ++ b.name) ::
          ("    ✅ DESTROYED: " ++ b.name) :: tail.stdout }
    | Except.error e =>
      { destroyed := tail.destroyed
        failed := (b.name, e) :: tail.failed
        delete_calls := b.name :: tail.delete_calls
        stdout := ("  🗑️  Destroying bucket: " ++ b.name) ::
          ("    ❌ FAILED: " ++ b.name ++ " - " ++ e) :: tail.stdout }

/-- `StorageDestructionAgent.destroy_s3_buckets` (lines 37-132): the banner
and bucket-count lines followed by the per-bucket loop. -/
def storage_destroy_s3_buckets (buckets : List SBucket)
    (delete_result : String → Except String Unit) : StorageS3Result :=
  let r := storage_process_buckets delete_result buckets
  { r with stdout :=
      "🔥 DESTROYING ALL S3 BUCKETS..." ::
      ("  Found " ++ toString buckets.length ++ " S3 buckets to destroy") ::
      r.stdout }

def kKeepName : String := "keep-1"

/-- A bucket carrying the preservation tag. -/
def keep_bucket : SBucket := { name := kKeepName, tags := [preserve_tag] }

/-- A delete primitive that always succeeds. -/
def always_ok_delete : String → Except String Unit := fun _ => Except.ok ()

/-! ## Compute destruction agent

From `src/agents/closure/compute_destruction_agent.py`.  Like the storage
agent, this closure-phase agent performs no tag lookup at all: it lists
every Lambda function of the region and deletes each one. -/

/-- One Lambda function as listed by `list_functions`, plus the tags carried
by the remote resource.  The agent never reads the tags; they are carried in
the model only so that preservation of the remote resource can be stated. -/
structure LambdaFunction where
  functionName : String
  tags : List Tag
deriving DecidableEq

/-- Accumulated state of `ComputeDestructionAgent.destroy_lambda_functions`:
the `destroyed` and `failed` journal entries (function names, with the error
string for failures) and the names passed to the `delete_function`
primitive. -/
structure ComputeLambdaResult where
  destroyed : List String
  failed : List (String × String)
  delete_calls : List String
deriving DecidableEq

/-- Per-function loop of `ComputeDestructionAgent.destroy_lambda_functions`
(lines 89-132): every listed function gets a `delete_function` call (line
110, the only provider call inside the per-function try); success is
journalled in `destroyed`, a raised error in `failed`, and the loop
continues.  No preservation check occurs anywhere in this loop. -/
def compute_destroy_lambda_functions
    (delete_result : String → Except String Unit) :
    List LambdaFunction → ComputeLambdaResult
  | [] => { destroyed := [], failed := [], delete_calls := [] }
  | f :: rest =>
    let tail := compute_destroy_lambda_functions delete_result rest
    match delete_result f.functionName with
    | Except.ok _ =>
      { destroyed := f.functionName :: tail.destroyed
        failed := tail.failed
        delete_calls := f.functionName :: tail.delete_calls }
    | Except.error e =>
      { destroyed := tail.destroyed
        failed := (f.functionName, e) :: tail.failed
        delete_calls := f.functionName :: tail.delete_calls }

/-- Every listed Lambda function gets a delete call from the compute agent,
whatever its tags and whatever the primitive outcomes. -/
theorem compute_delete_calls_eq_names
    (delete_result : String → Except String Unit)
    (fns : List LambdaFunction) :
    (compute_destroy_lambda_functions delete_result fns).delete_calls =
      fns.map LambdaFunction.functionName := by
  induction fns with
  | nil => rfl
  | cons f rest ih =>
    unfold compute_destroy_lambda_functions
    cases delete_result f.functionName <;> simp [ih]

def kKeepFnName : String := "keep-fn"

/-- A Lambda function carrying the preservation tag. -/
def keep_function : LambdaFunction :=
  { functionName := kKeepFnName, tags := [preserve_tag] }

/-- Counterexample to claim C2 as stated: a bucket carrying the preservation
tag decom:preserve=true is nevertheless passed to the delete primitive by the
closure-phase storage agent and journalled as destroyed. -/
theorem closure_agent_deletes_preserved_bucket :
    is_resource_preserved keep_bucket.name keep_bucket.tags = true ∧
    (storage_destroy_s3_buckets [keep_bucket] always_ok_delete).delete_calls
      = [keep_bucket.name] ∧
    (storage_destroy_s3_buckets [keep_bucket] always_ok_delete).destroyed
      = [keep_bucket.name] := by
  refine ⟨by decide, by decide, by decide⟩

/-- Every listed bucket gets a delete call from the storage agent, whatever
its tags and whatever the primitive outcomes. -/
theorem storage_delete_calls_eq_names
    (delete_result : String → Except String Unit) (buckets : List SBucket) :
    (storage_process_buckets delete_result buckets).delete_calls =
      buckets.map SBucket.name := by
  induction buckets with
  | nil => rfl
  | cons b rest ih =>
    unfold storage_process_buckets
    cases delete_result b.name <;> simp [ih]

/-- Claim C2 (amended): Preserve-classified resources are skipped only by the
per-account sweeper — a tagged resource produces `skipped_preserved` and no
delete call there — while the closure-phase destruction agents perform no
preservation check: the storage agent issues a delete call for every listed
bucket and the compute agent issues a delete call for every listed Lambda
function, regardless of tags. -/
theorem preserved_skipped_by_sweeper_only
    (dry_run : Bool) (name : String) (tags : List Tag)
    (delete_result : Except String Unit)
    (buckets : List SBucket) (dr : String → Except String Unit)
    (fns : List LambdaFunction) (dl : String → Except String Unit)
    (h : is_resource_preserved name tags = true) :
    sweep_s3_bucket dry_run name (Except.ok tags) delete_result =
      { outcome := SweepOutcome.skipped_preserved, delete_calls := [] } ∧
    (storage_destroy_s3_buckets buckets dr).delete_calls =
      buckets.map SBucket.name ∧
    (compute_destroy_lambda_functions dl fns).delete_calls =
      fns.map LambdaFunction.functionName := by
  refine ⟨?_, ?_, ?_⟩
  · unfold sweep_s3_bucket
    have htags : get_resource_tags svc_s3 (Except.ok tags) = tags := by
      unfold get_resource_tags
      rw [if_pos (by decide)]
    rw [htags, if_pos h]
  · unfold storage_destroy_s3_buckets
    exact storage_delete_calls_eq_names dr buckets
  · exact compute_delete_calls_eq_names dl fns

/-- Witness for the amended C2 at a concrete input: the tagged bucket is
skipped by the sweeper, and both the storage agent and the compute agent
issue delete calls for their listed resources (a preserve-tagged bucket and
a preserve-tagged Lambda function). -/
theorem preserved_skipped_by_sweeper_only_witness :
    is_resource_preserved kKeepName [preserve_tag] = true ∧
    (sweep_s3_bucket false kKeepName (Except.ok [preserve_tag])
        (Except.ok ()) =
      { outcome := SweepOutcome.skipped_preserved, delete_calls := [] } ∧
    (storage_destroy_s3_buckets [keep_bucket] always_ok_delete).delete_calls =
      [keep_bucket].map SBucket.name ∧
    (compute_destroy_lambda_functions always_ok_delete
        [keep_function]).delete_calls =
      [keep_function].map LambdaFunction.functionName) :=
  ⟨by decide,
   preserved_skipped_by_sweeper_only false kKeepName [preserve_tag]
     (Except.ok ()) [keep_bucket] always_ok_delete [keep_function]
     always_ok_delete (by decide)⟩

/-! ## Account closure orchestrator: count scraping

From `src/agents/closure/account_closure_orchestrator.py`,
`AccountClosureOrchestrator.run_agent` (lines 30-115).  The orchestrator runs
each agent as a subprocess and extracts the per-phase destroyed/failed counts
from the textual stdout of the agent, line by line. -/

def kw_destroyed : String := "destroyed:"
def kw_complete : String := "complete!"
def kw_failed : String := "failed:"

/-- First number of a stdout line: `re.findall` of a digit run over the raw
line, then `int(numbers[0])`; 0 when the line has no digit (the `if numbers`
guard skips the addition). -/
def line_first_number (line : String) : Nat :=
  (first_number line.data).getD 0

/-- The line scan of `run_agent` (lines 59-75).  The boolean argument tracks
whether `import re` has executed: the import statement sits inside the first
branch (line 63), so a failed-count line seen before any destroyed/complete
line raises an unbound-name error that the bare except swallows (lines
74-75), leaving the failed count unchanged. -/
def scrape_counts : List String → Nat → Nat → Bool → Nat × Nat
  | [], destroyed_count, failed_count, _ => (destroyed_count, failed_count)
  | line :: rest, destroyed_count, failed_count, re_imported =>
    if contains_lower kw_destroyed line || contains_lower kw_complete line then
      scrape_counts rest (destroyed_count + line_first_number line)
        failed_count true
    else if contains_lower kw_failed line then
      if re_imported then
        scrape_counts rest destroyed_count
          (failed_count + line_first_number line) re_imported
      else
        scrape_counts rest destroyed_count failed_count re_imported
    else
      scrape_counts rest destroyed_count failed_count re_imported

/-- The per-phase counts `run_agent` reports for an agent whose stdout is the
given lines: `(resources_destroyed, failures)` of the phase result. -/
def run_agent_counts (stdout_lines : List String) : Nat × Nat :=
  scrape_counts stdout_lines 0 0 false

/-- Full stdout of `StorageDestructionAgent.destroy_all_storage`
(lines 211-256) for a run in which `describe_regions` returns no region, so
the EBS and snapshot passes print nothing and their summary counters stay 0:
the banner lines, the `destroy_s3_buckets` output, and the final summary
block printed from the structured destruction log. -/
def storage_agent_stdout (account_id : String) (filename : String)
    (r : StorageS3Result) : List String :=
  ("🔥🔥🔥 STORAGE DESTRUCTION AGENT - ACCOUNT " ++ account_id ++ " 🔥🔥🔥") ::
  "⚠️  WARNING: ALL STORAGE RESOURCES WILL BE PERMANENTLY DESTROYED!" ::
  r.stdout ++
  ["",
   "🔥 STORAGE DESTRUCTION COMPLETE!",
   "  S3 Buckets destroyed: " ++ toString r.destroyed.length,
   "  EBS Volumes destroyed: 0",
   "  Snapshots destroyed: 0",
   "  Failed: " ++ toString r.failed.length,
   "  Results saved to: " ++ filename]

def kAcct : String := "134388504287"
def kOutFile : String := "results.json"
def kBucket42 : String := "bucket-42"

/-- A concrete storage run: one bucket named bucket-42, delete succeeds. -/
def c3_run : StorageS3Result :=
  storage_destroy_s3_buckets [{ name := kBucket42, tags := [] }]
    always_ok_delete

/-- Counterexample to claim C3 as stated: the per-phase destroyed count is
scraped out of the stdout text, and for a run whose structured journal
records exactly one destroyed bucket the orchestrator reports 45, because
the per-bucket DESTROYED line contributes the digits of the bucket name (42)
and the summary line S3 Buckets destroyed: 1 contributes its first digit run,
the 3 of S3. -/
theorem run_agent_counts_scraped_not_aggregated :
    run_agent_counts (storage_agent_stdout kAcct kOutFile c3_run) = (45, 0) ∧
    c3_run.destroyed.length = 1 ∧
    (run_agent_counts (storage_agent_stdout kAcct kOutFile c3_run)).1 ≠
      c3_run.destroyed.length := by
  refine ⟨by decide, by decide, by decide⟩

def kBucketD1 : String := "bucket-1"
def kBucketD2 : String := "bucket-2"

/-- A storage run destroying the single bucket bucket-1. -/
def c3_run_a : StorageS3Result :=
  storage_destroy_s3_buckets [{ name := kBucketD1, tags := [] }]
    always_ok_delete

/-- A storage run destroying the single bucket bucket-2. -/
def c3_run_b : StorageS3Result :=
  storage_destroy_s3_buckets [{ name := kBucketD2, tags := [] }]
    always_ok_delete

/-- Claim C3 (amended): the per-phase destroyed/failed counts are derived by
scraping the first number of each stdout line whose lowercase form contains
destroyed:, complete!, or failed:.  They are a function of the text and not
of the structured outcome records: two runs whose structured journals record
the same number of destroyed resources are reported with different totals. -/
theorem run_agent_counts_depend_on_text :
    c3_run_a.destroyed.length = c3_run_b.destroyed.length ∧
    run_agent_counts (storage_agent_stdout kAcct kOutFile c3_run_a) ≠
      run_agent_counts (storage_agent_stdout kAcct kOutFile c3_run_b) := by
  refine ⟨by decide, by decide⟩

/-! ## Targeted S3 bucket destroyer

From `src/agents/closure/targeted_s3_bucket_destroyer.py`.  AWS client
errors carry an error `Code` and a printable message (`str(e)`). -/

/-- A botocore `ClientError`: the response error code and the message
produced by `str(e)`. -/
structure ClientErr where
  code : String
  msg : String
deriving DecidableEq

def kAccessDenied : String := "AccessDenied"
def kNoSuchBucket : String := "NoSuchBucket"
def kBucketNotEmpty : String := "BucketNotEmpty"
def kSCPLong : String := "ServiceControlPolicy"
def kSCPShort : String := "SCP"

/-- `TargetedS3BucketDestroyer.empty_bucket_contents` (lines 31-93), with the
combined listing/deletion sequence passed as one `Except` call: returns true
on success, false on AccessDenied, true on NoSuchBucket (the bucket is
already gone), false on any other client error. -/
def empty_bucket_contents (call : Except ClientErr Unit) : Bool :=
  match call with
  | Except.ok _ => true
  | Except.error e =>
    if e.code = kAccessDenied then false
    else if e.code = kNoSuchBucket then true
    else false

/-- The five configuration-removal calls of
`remove_bucket_configurations` (lines 95-148), each an independent
best-effort provider call. -/
structure ConfigCalls where
  policy : Except ClientErr Unit
  lifecycle : Except ClientErr Unit
  cors : Except ClientErr Unit
  versioning : Except ClientErr Unit
  notification : Except ClientErr Unit

def cfg_policy : String := "bucket_policy"
def cfg_lifecycle : String := "lifecycle"
def cfg_cors : String := "cors"
def cfg_versioning : String := "versioning"
def cfg_notifications : String := "notifications"

/-- `TargetedS3BucketDestroyer.remove_bucket_configurations` (lines 95-148):
each configuration name is appended on success of its call; every raised
error is swallowed (printed as a warning only). -/
def remove_bucket_configurations (c : ConfigCalls) : List String :=
  (match c.policy with | Except.ok _ => [cfg_policy] | Except.error _ => []) ++
  (match c.lifecycle with
    | Except.ok _ => [cfg_lifecycle] | Except.error _ => []) ++
  (match c.cors with | Except.ok _ => [cfg_cors] | Except.error _ => []) ++
  (match c.versioning with
    | Except.ok _ => [cfg_versioning] | Except.error _ => []) ++
  (match c.notification with
    | Except.ok _ => [cfg_notifications] | Except.error _ => [])

/-- The per-bucket result dict of `destroy_bucket` (lines 154-161). -/
structure BucketResult where
  bucket_name : String
  status : String
  error_type : Option String
  error_message : Option String
  configurations_removed : List String
  steps_completed : List String
deriving DecidableEq

def st_failed : String := "failed"
def st_success : String := "success"
def et_access_denied : String := "access_denied"
def et_bucket_not_empty : String := "bucket_not_empty"
def et_policy_restricted : String := "policy_restricted"
def et_other_error : String := "other_error"
def et_empty_failed : String := "empty_failed"
def step_exists : String := "bucket_exists_check"
def step_empty : String := "empty_contents"
def step_remove_cfg : String := "remove_configurations"
def step_delete : String := "delete_bucket"
def msg_already_deleted : String := "Bucket already deleted"

/-- Classification performed by the outer `except ClientError` handler of
`destroy_bucket` (lines 204-227): by error code AccessDenied, then
BucketNotEmpty, then by a case-sensitive substring test of the message for
ServiceControlPolicy or SCP, else other_error. -/
def classify_client_error (e : ClientErr) : String :=
  if e.code = kAccessDenied then et_access_denied
  else if e.code = kBucketNotEmpty then et_bucket_not_empty
  else if contains_exact kSCPLong e.msg || contains_exact kSCPShort e.msg then
    et_policy_restricted
  else et_other_error

/-- `TargetedS3BucketDestroyer.destroy_bucket` (lines 150-234).  The provider
primitives are inputs: `head_bucket` is the existence pre-check,
`empty_call` the emptying sequence, `config_calls` the five configuration
removals, and `delete_call` the `delete_bucket` primitive indexed by attempt
number.  The second component of the result counts how many times the delete
primitive is invoked.  The source contains no retry loop: the delete
primitive is called at most once (at index 0). -/
def destroy_bucket (bucket_name : String)
    (head_bucket : Except ClientErr Unit)
    (empty_call : Except ClientErr Unit)
    (config_calls : ConfigCalls)
    (delete_call : Nat → Except ClientErr Unit) : BucketResult × Nat :=
  let base : BucketResult :=
    { bucket_name := bucket_name, status := st_failed, error_type := none,
      error_message := none, configurations_removed := [],
      steps_completed := [] }
  match head_bucket with
  | Except.error e =>
    if e.code = kNoSuchBucket then
      ({ base with
          status := st_success,
          error_message := some msg_already_deleted }, 0)
    else if e.code = kAccessDenied then
      ({ base with
          error_type := some et_access_denied,
          error_message := some e.msg }, 0)
    else
      ({ base with
          error_type := some (classify_client_error e),
          error_message := some e.msg }, 0)
  | Except.ok _ =>
    if empty_bucket_contents empty_call then
      let removed := remove_bucket_configurations config_calls
      match delete_call 0 with
      | Except.ok _ =>
        ({ base with
            status := st_success,
            configurations_removed := removed,
            steps_completed :=
              [step_exists, step_empty, step_remove_cfg, step_delete] }, 1)
      | Except.error e =>
        ({ base with
            error_type := some (classify_client_error e),
            error_message := some e.msg,
            configurations_removed := removed,
            steps_completed := [step_exists, step_empty, step_remove_cfg] }, 1)
    else
      ({ base with
          error_type := some et_empty_failed,
          steps_completed := [step_exists] }, 0)

/-- Claim C8: invoking destroy on a bucket whose existence pre-check reports
it missing (head_bucket raises NoSuchBucket) yields a success outcome with
the already-absent reason, and the delete primitive is called zero times,
whatever the remaining collaborators would do. -/
theorem already_absent_bucket_succeeds_without_delete
    (bucket_name m : String) (empty_call : Except ClientErr Unit)
    (config_calls : ConfigCalls)
    (delete_call : Nat → Except ClientErr Unit) :
    destroy_bucket bucket_name
        (Except.error { code := kNoSuchBucket, msg := m })
        empty_call config_calls delete_call =
      ({ bucket_name := bucket_name, status := st_success,
         error_type := none, error_message := some msg_already_deleted,
         configurations_removed := [], steps_completed := [] }, 0) := by
  rfl

def kTransientErr : ClientErr :=
  { code := "Throttling", msg := "Rate exceeded" }

/-- A delete primitive that raises a transient throttling error on the first
two calls and succeeds from the third call on. -/
def third_try_delete : Nat → Except ClientErr Unit :=
  fun n => if n < 2 then Except.error kTransientErr else Except.ok ()

/-- All five configuration calls succeed. -/
def all_ok_cfg : ConfigCalls :=
  { policy := Except.ok (), lifecycle := Except.ok (), cors := Except.ok (),
    versioning := Except.ok (), notification := Except.ok () }

def kTargetBucket : String := "cdk-assets-1"

/-- Counterexample to claim C4 as stated: with a delete primitive that fails
transiently twice and would succeed on the third call, `destroy_bucket`
records failed after exactly one delete call — it does not retry, and the
final outcome is not Succeeded at attempt 3. -/
theorem transient_error_not_retried :
    (destroy_bucket kTargetBucket (Except.ok ()) (Except.ok ()) all_ok_cfg
        third_try_delete).1.status = st_failed ∧
    (destroy_bucket kTargetBucket (Except.ok ()) (Except.ok ()) all_ok_cfg
        third_try_delete).2 = 1 ∧
    ¬((destroy_bucket kTargetBucket (Except.ok ()) (Except.ok ()) all_ok_cfg
        third_try_delete).1.status = st_success ∧
      (destroy_bucket kTargetBucket (Except.ok ()) (Except.ok ()) all_ok_cfg
        third_try_delete).2 = 3) := by
  refine ⟨by decide, by decide, by decide⟩

/-- Claim C4 (amended): `destroy_bucket` never retries — when the pre-checks
pass and the delete primitive raises any client error, the result is failed
with the error classified by code (access denied maps to access_denied,
policy-restricted messages to policy_restricted), and the delete primitive
has been invoked exactly once; there is no backoff loop and no attempt
ceiling beyond the single call. -/
theorem delete_error_fails_without_retry
    (bucket_name : String) (empty_call : Except ClientErr Unit)
    (config_calls : ConfigCalls)
    (delete_call : Nat → Except ClientErr Unit) (e : ClientErr)
    (hempty : empty_bucket_contents empty_call = true)
    (hdel : delete_call 0 = Except.error e) :
    (destroy_bucket bucket_name (Except.ok ()) empty_call config_calls
        delete_call).1.status = st_failed ∧
    (destroy_bucket bucket_name (Except.ok ()) empty_call config_calls
        delete_call).2 = 1 ∧
    (destroy_bucket bucket_name (Except.ok ()) empty_call config_calls
        delete_call).1.error_type = some (classify_client_error e) ∧
    (e.code = kAccessDenied → classify_client_error e = et_access_denied) := by
  refine ⟨?_, ?_, ?_, ?_⟩
  · simp [destroy_bucket, hempty, hdel]
  · simp [destroy_bucket, hempty, hdel]
  · simp [destroy_bucket, hempty, hdel]
  · intro hc
    unfold classify_client_error
    rw [if_pos hc]

def kDenied : ClientErr := { code := kAccessDenied, msg := "AccessDenied" }

/-- A delete primitive that always raises access denied. -/
def denied_delete : Nat → Except ClientErr Unit :=
  fun _ => Except.error kDenied

/-- Witness for the amended C4 at a concrete input: an access-denied delete
error is recorded as failed with error type access_denied after one call. -/
theorem delete_error_fails_without_retry_witness :
    (empty_bucket_contents (Except.ok ()) = true ∧
      denied_delete 0 = Except.error kDenied) ∧
    ((destroy_bucket kTargetBucket (Except.ok ()) (Except.ok ()) all_ok_cfg
        denied_delete).1.status = st_failed ∧
    (destroy_bucket kTargetBucket (Except.ok ()) (Except.ok ()) all_ok_cfg
        denied_delete).2 = 1 ∧
    (destroy_bucket kTargetBucket (Except.ok ()) (Except.ok ()) all_ok_cfg
        denied_delete).1.error_type = some (classify_client_error kDenied) ∧
    (kDenied.code = kAccessDenied →
      classify_client_error kDenied = et_access_denied)) :=
  ⟨⟨by decide, rfl⟩,
   delete_error_fails_without_retry kTargetBucket (Except.ok ()) all_ok_cfg
     denied_delete kDenied (by decide) rfl⟩

/-! ## Infrastructure destruction agent

From `src/agents/closure/infrastructure_destruction_agent.py`.  The agent is
modelled by the trace of provider delete calls it issues, in order. -/

/-- A security group as returned by `describe_security_groups`. -/
structure SecurityGroup where
  groupId : String
  groupName : String
deriving DecidableEq

/-- A VPC as returned by `describe_vpcs`. -/
structure Vpc where
  vpcId : String
  isDefault : Bool
deriving DecidableEq

/-- An internet gateway with its VPC attachments. -/
structure InternetGateway where
  igwId : String
  attachments : List String
deriving DecidableEq

/-- A route table; `isMain` is whether some association has Main set. -/
structure RouteTable where
  routeTableId : String
  isMain : Bool
deriving DecidableEq

/-- One provider call issued by the infrastructure agent, in the order the
source issues them. -/
inductive InfraCall where
  | delete_stack (region name : String)
  | delete_nat_gateway (region natId : String)
  | detach_internet_gateway (region igwId vpcId : String)
  | delete_internet_gateway (region igwId : String)
  | delete_security_group (region : String) (sg : SecurityGroup)
  | delete_subnet (region subnetId : String)
  | delete_route_table (region routeTableId : String)
  | delete_vpc (region : String) (vpc : Vpc)
deriving DecidableEq

/-- The calls actually issued from a planned call sequence that sits inside
one try block: calls are issued in order until one raises (the raising call
is itself issued); the remaining calls of the block are skipped by the
exception. -/
def issue_until_raise (raises : InfraCall → Bool) :
    List InfraCall → List InfraCall
  | [] => []
  | c :: rest =>
    if raises c then [c] else c :: issue_until_raise raises rest

/-- The networking inventory of one region, as returned by the describe
calls of `destroy_networking`: available NAT gateways, attached internet
gateways, all security groups, all VPCs, and per-VPC subnets and route
tables. -/
structure RegionNetworking where
  nat_gateways : List String
  internet_gateways : List InternetGateway
  security_groups : List SecurityGroup
  vpcs : List Vpc
  subnets : String → List String
  route_tables : String → List RouteTable

def kDefaultName : String := "default"

/-- `InfrastructureDestructionAgent.destroy_networking` (lines 118-266) as
the ordered trace of provider calls it issues: NAT gateways first (each
delete in its own try), then internet gateways (detach attachments, then
delete, one try per gateway), then security groups whose GroupName is not
default, then non-default VPCs (subnets, then non-main route tables, then
the VPC itself, one try per VPC). -/
def destroy_networking (raises : InfraCall → Bool) (region : String)
    (net : RegionNetworking) : List InfraCall :=
  (net.nat_gateways.flatMap fun natId =>
    [InfraCall.delete_nat_gateway region natId])
  ++ (net.internet_gateways.flatMap fun igw =>
      issue_until_raise raises
        ((igw.attachments.map fun vpcId =>
            InfraCall.detach_internet_gateway region igw.igwId vpcId)
          ++ [InfraCall.delete_internet_gateway region igw.igwId]))
  ++ ((net.security_groups.filter fun sg =>
        !(sg.groupName == kDefaultName)).flatMap fun sg =>
      [InfraCall.delete_security_group region sg])
  ++ ((net.vpcs.filter fun vpc => !vpc.isDefault).flatMap fun vpc =>
      issue_until_raise raises
        (((net.subnets vpc.vpcId).map fun subnetId =>
            InfraCall.delete_subnet region subnetId)
          ++ (((net.route_tables vpc.vpcId).filter fun rt =>
                !rt.isMain).map fun rt =>
              InfraCall.delete_route_table region rt.routeTableId)
          ++ [InfraCall.delete_vpc region vpc]))

def kControlTowerPat : String := "controltower"
def kAwsLandingZonePat : String := "aws-landing-zone"
def kLandingZonePat : String := "landing-zone"
def kStacksetPat : String := "stackset-"
def kCdkPat : String := "cdk-"

/-- Whether a stack name matches the Control Tower / landing-zone naming
tested by the closure agent `stack_priority` (lines 63-70): the lowercased
name contains controltower or aws-landing-zone. -/
def is_protected_stack_name (name : String) : Bool :=
  contains_lower kControlTowerPat name || contains_lower kAwsLandingZonePat name

/-- `stack_priority` of the infrastructure agent (lines 62-70): Control
Tower and landing-zone stacks 3 (deleted last), stackset- prefixed stacks 2,
application stacks 1 (deleted first). -/
def stack_priority (name : String) : Nat :=
  if is_protected_stack_name name then 3
  else if starts_with_chars kStacksetPat.data (lower_chars name) then 2
  else 1

/-- Whether a stack name matches the Control Tower / landing-zone naming
tested by the sweeper `stack_priority` (lines 181-188): the lowercased name
contains controltower or landing-zone. -/
def is_protected_stack_name_sweeper (name : String) : Bool :=
  contains_lower kControlTowerPat name || contains_lower kLandingZonePat name

/-- `stack_priority` of the sweeper (account_sweeper_agent.py lines 180-188):
Control Tower and landing-zone stacks 2 (processed last), names containing
cdk- 1 (second), others 0 (first). -/
def stack_priority_sweeper (name : String) : Nat :=
  if is_protected_stack_name_sweeper name then 2
  else if contains_lower kCdkPat name then 1
  else 0

/-- The order in which `destroy_cloudformation_stacks` issues delete calls:
the listed stacks sorted ascending by `stack_priority` (line 72, a stable
sort by key as in Python sorted). -/
def sorted_stacks_for_deletion (stack_names : List String) : List String :=
  stack_names.mergeSort fun a b => decide (stack_priority a ≤ stack_priority b)

/-- `InfrastructureDestructionAgent.destroy_cloudformation_stacks`
(lines 41-116) as the trace of `delete_stack` calls: every listed stack gets
a delete call (the termination-protection sub-step swallows its own errors,
and a failing delete is journalled and the loop continues), in sorted
priority order. -/
def destroy_cloudformation_stacks (region : String)
    (stack_names : List String) : List InfraCall :=
  (sorted_stacks_for_deletion stack_names).map (InfraCall.delete_stack region)

/-- The order in which the sweeper `delete_cloudformation_stacks`
(lines 170-248) issues its live-mode delete calls: the stacks sorted
ascending by the sweeper `stack_priority` (line 190), restricted to those
not skipped as preserved. -/
def sweeper_stack_delete_order (preserved : String → Bool)
    (stack_names : List String) : List String :=
  (stack_names.mergeSort fun a b =>
    decide (stack_priority_sweeper a ≤ stack_priority_sweeper b)).filter
      fun s => !preserved s

/-- Constant `priority_regions` of `destroy_all_infrastructure` (line 278). -/
def priority_regions : List String :=
  ["us-east-1", "us-east-2", "us-west-1", "us-west-2"]

/-- `InfrastructureDestructionAgent.destroy_all_infrastructure`
(lines 268-303) as the ordered trace of provider calls: phase 1 runs
`destroy_cloudformation_stacks` for every region (priority regions first),
then after a 30 second wait phase 2 runs `destroy_networking` for every
region in the same order. -/
def destroy_all_infrastructure (raises : InfraCall → Bool)
    (regions : List String) (stacks_in : String → List String)
    (net_in : String → RegionNetworking) : List InfraCall :=
  let all_regions :=
    priority_regions ++ regions.filter fun r => !priority_regions.contains r
  (all_regions.flatMap fun r => destroy_cloudformation_stacks r (stacks_in r))
  ++ (all_regions.flatMap fun r => destroy_networking raises r (net_in r))

/-- Rank of a call within the networking sub-order of a region: NAT
gateways, then internet gateways (detach and delete), then security groups,
then VPC teardown (subnets, route tables, the VPC); stack deletes rank
before all of them. -/
def net_rank : InfraCall → Nat
  | InfraCall.delete_stack _ _ => 0
  | InfraCall.delete_nat_gateway _ _ => 1
  | InfraCall.detach_internet_gateway _ _ _ => 2
  | InfraCall.delete_internet_gateway _ _ => 2
  | InfraCall.delete_security_group _ _ => 3
  | InfraCall.delete_subnet _ _ => 4
  | InfraCall.delete_route_table _ _ => 4
  | InfraCall.delete_vpc _ _ => 4

/-- Phase of a call in `destroy_all_infrastructure`: CloudFormation stack
deletes are phase 1, every networking call is phase 2. -/
def infra_phase : InfraCall → Nat
  | InfraCall.delete_stack _ _ => 1
  | _ => 2

/-- Calls issued inside one try block are a subset of the planned block. -/
theorem mem_of_mem_issue_until_raise (raises : InfraCall → Bool)
    (l : List InfraCall) (e : InfraCall)
    (h : e ∈ issue_until_raise raises l) : e ∈ l := by
  induction l with
  | nil => simpa [issue_until_raise] using h
  | cons c rest ih =>
    unfold issue_until_raise at h
    by_cases hr : raises c = true
    · rw [if_pos hr] at h
      simp only [List.mem_singleton] at h
      simp [h]
    · rw [if_neg hr] at h
      rcases List.mem_cons.mp h with h1 | h2
      · simp [h1]
      · exact List.mem_cons_of_mem _ (ih h2)

/-- A list on which a rank function is constant is rank-monotone. -/
theorem pairwise_le_of_const {α : Type} (f : α → Nat) (k : Nat)
    (l : List α) (h : ∀ e ∈ l, f e = k) :
    l.Pairwise fun a b => f a ≤ f b := by
  induction l with
  | nil => exact List.Pairwise.nil
  | cons a t ih =>
    refine List.Pairwise.cons ?_
      (ih fun e he => h e (List.mem_cons_of_mem _ he))
    intro b hb
    rw [h a (List.mem_cons_self a t), h b (List.mem_cons_of_mem _ hb)]

/-- Prepending a constant-rank block below a rank-monotone tail keeps the
concatenation rank-monotone. -/
theorem pairwise_le_append_const {α : Type} (f : α → Nat) (k : Nat)
    (l1 l2 : List α) (h1 : ∀ e ∈ l1, f e = k) (hk : ∀ e ∈ l2, k ≤ f e)
    (h2 : l2.Pairwise fun a b => f a ≤ f b) :
    (l1 ++ l2).Pairwise fun a b => f a ≤ f b :=
  List.pairwise_append.mpr ⟨pairwise_le_of_const f k l1 h1, h2,
    fun a ha b hb => (h1 a ha) ▸ hk b hb⟩

/-- Every call of the NAT-gateway pass has networking rank 1. -/
theorem net_rank_mem_nat (region : String) (ids : List String) :
    ∀ e ∈ ids.flatMap fun natId =>
      [InfraCall.delete_nat_gateway region natId], net_rank e = 1 := by
  intro e he
  simp only [List.mem_flatMap, List.mem_singleton] at he
  obtain ⟨x, _, rfl⟩ := he
  rfl

/-- Every call of the internet-gateway pass has networking rank 2. -/
theorem net_rank_mem_igw (raises : InfraCall → Bool) (region : String)
    (igws : List InternetGateway) :
    ∀ e ∈ igws.flatMap fun igw =>
      issue_until_raise raises
        ((igw.attachments.map fun vpcId =>
            InfraCall.detach_internet_gateway region igw.igwId vpcId)
          ++ [InfraCall.delete_internet_gateway region igw.igwId]),
      net_rank e = 2 := by
  intro e he
  simp only [List.mem_flatMap] at he
  obtain ⟨igw, _, hmem⟩ := he
  have h2 := mem_of_mem_issue_until_raise _ _ _ hmem
  simp only [List.mem_append, List.mem_map, List.mem_singleton] at h2
  rcases h2 with ⟨v, _, rfl⟩ | rfl <;> rfl

/-- Every call of the security-group pass has networking rank 3. -/
theorem net_rank_mem_sg (region : String) (sgs : List SecurityGroup) :
    ∀ e ∈ (sgs.filter fun sg =>
        !(sg.groupName == kDefaultName)).flatMap fun sg =>
      [InfraCall.delete_security_group region sg], net_rank e = 3 := by
  intro e he
  simp only [List.mem_flatMap, List.mem_singleton] at he
  obtain ⟨sg, _, rfl⟩ := he
  rfl

/-- Every call of the VPC teardown pass has networking rank 4. -/
theorem net_rank_mem_vpc (raises : InfraCall → Bool) (region : String)
    (net : RegionNetworking) :
    ∀ e ∈ (net.vpcs.filter fun vpc => !vpc.isDefault).flatMap fun vpc =>
      issue_until_raise raises
        (((net.subnets vpc.vpcId).map fun subnetId =>
            InfraCall.delete_subnet region subnetId)
          ++ ((((net.route_tables vpc.vpcId).filter fun rt =>
                !rt.isMain).map fun rt =>
              InfraCall.delete_route_table region rt.routeTableId)
            ++ [InfraCall.delete_vpc region vpc])),
      net_rank e = 4 := by
  intro e he
  simp only [List.mem_flatMap] at he
  obtain ⟨vpc, _, hmem⟩ := he
  have h2 := mem_of_mem_issue_until_raise _ _ _ hmem
  simp only [List.mem_append, List.mem_map, List.mem_singleton] at h2
  rcases h2 with ⟨s, _, rfl⟩ | ⟨rt, _, rfl⟩ | rfl <;> rfl

/-- The networking trace of one region is rank-monotone: NAT gateways before
internet gateways before security groups before VPC teardown. -/
theorem destroy_networking_rank_monotone (raises : InfraCall → Bool)
    (region : String) (net : RegionNetworking) :
    (destroy_networking raises region net).Pairwise
      fun a b => net_rank a ≤ net_rank b := by
  unfold destroy_networking
  simp only [List.append_assoc]
  refine pairwise_le_append_const net_rank 1 _ _
    (net_rank_mem_nat region net.nat_gateways) ?_ ?_
  · intro e he
    rcases List.mem_append.mp he with h | h
    · rw [net_rank_mem_igw raises region net.internet_gateways e h]
      omega
    · rcases List.mem_append.mp h with h2 | h2
      · rw [net_rank_mem_sg region net.security_groups e h2]
        omega
      · rw [net_rank_mem_vpc raises region net e h2]
        omega
  refine pairwise_le_append_const net_rank 2 _ _
    (net_rank_mem_igw raises region net.internet_gateways) ?_ ?_
  · intro e he
    rcases List.mem_append.mp he with h | h
    · rw [net_rank_mem_sg region net.security_groups e h]
      omega
    · rw [net_rank_mem_vpc raises region net e h]
      omega
  refine pairwise_le_append_const net_rank 3 _ _
    (net_rank_mem_sg region net.security_groups) ?_ ?_
  · intro e he
    rw [net_rank_mem_vpc raises region net e he]
    omega
  exact pairwise_le_of_const net_rank 4 _ (net_rank_mem_vpc raises region net)

/-- A call of networking rank at least 1 is a phase-2 call. -/
theorem infra_phase_of_net_rank (e : InfraCall) (h : 1 ≤ net_rank e) :
    infra_phase e = 2 := by
  cases e <;> first | rfl | simp [net_rank] at h

/-- Every call of a networking trace is a phase-2 call. -/
theorem destroy_networking_phase (raises : InfraCall → Bool)
    (region : String) (net : RegionNetworking) :
    ∀ e ∈ destroy_networking raises region net, infra_phase e = 2 := by
  intro e he
  unfold destroy_networking at he
  simp only [List.append_assoc, List.mem_append] at he
  refine infra_phase_of_net_rank e ?_
  rcases he with h | h | h | h
  · rw [net_rank_mem_nat region net.nat_gateways e h]
  · rw [net_rank_mem_igw raises region net.internet_gateways e h]
    omega
  · rw [net_rank_mem_sg region net.security_groups e h]
    omega
  · rw [net_rank_mem_vpc raises region net e h]
    omega

/-- Every call of a stack-deletion trace is a phase-1 call. -/
theorem destroy_cloudformation_stacks_phase (region : String)
    (stack_names : List String) :
    ∀ e ∈ destroy_cloudformation_stacks region stack_names,
      infra_phase e = 1 := by
  intro e he
  unfold destroy_cloudformation_stacks at he
  simp only [List.mem_map] at he
  obtain ⟨n, _, rfl⟩ := he
  rfl

/-- Claim C5: within any region the networking primitives are destroyed last
and in the sub-order NAT gateways, then internet gateways, then security
groups, then VPCs (the networking trace is rank-monotone), and in the
top-level run every CloudFormation stack delete call, over all regions,
precedes every networking call (the infrastructure trace is
phase-monotone). -/
theorem networking_destroyed_last_in_suborder (raises : InfraCall → Bool)
    (region : String) (net : RegionNetworking) (regions : List String)
    (stacks_in : String → List String)
    (net_in : String → RegionNetworking) :
    ((destroy_networking raises region net).Pairwise
      fun a b => net_rank a ≤ net_rank b) ∧
    ((destroy_all_infrastructure raises regions stacks_in net_in).Pairwise
      fun a b => infra_phase a ≤ infra_phase b) := by
  constructor
  · exact destroy_networking_rank_monotone raises region net
  · unfold destroy_all_infrastructure
    refine pairwise_le_append_const infra_phase 1 _ _ ?_ ?_ ?_
    · intro e he
      simp only [List.mem_flatMap] at he
      obtain ⟨r, _, hmem⟩ := he
      exact destroy_cloudformation_stacks_phase r (stacks_in r) e hmem
    · intro e he
      simp only [List.mem_flatMap] at he
      obtain ⟨r, _, hmem⟩ := he
      rw [destroy_networking_phase raises r (net_in r) e hmem]
      omega
    · refine pairwise_le_of_const infra_phase 2 _ ?_
      intro e he
      simp only [List.mem_flatMap] at he
      obtain ⟨r, _, hmem⟩ := he
      exact destroy_networking_phase raises r (net_in r) e hmem

/-- Claim C9: the networking pass never deletes the default security group
or a default VPC — every delete_security_group call in the trace carries a
group whose GroupName is not default, and every delete_vpc call carries a
VPC whose IsDefault flag is false, for any inventory and any raise
behavior. -/
theorem default_network_resources_never_deleted (raises : InfraCall → Bool)
    (region : String) (net : RegionNetworking) :
    (∀ r g, InfraCall.delete_security_group r g ∈
        destroy_networking raises region net → g.groupName ≠ kDefaultName) ∧
    (∀ r v, InfraCall.delete_vpc r v ∈
        destroy_networking raises region net → v.isDefault = false) := by
  constructor
  · intro r g hmem
    have h3 := net_rank_mem_sg region net.security_groups
      (InfraCall.delete_security_group r g)
    unfold destroy_networking at hmem
    simp only [List.append_assoc, List.mem_append] at hmem
    rcases hmem with h | h | h | h
    · have := net_rank_mem_nat region net.nat_gateways _ h
      simp [net_rank] at this
    · have := net_rank_mem_igw raises region net.internet_gateways _ h
      simp [net_rank] at this
    · simp only [List.mem_flatMap, List.mem_singleton] at h
      obtain ⟨sg, hsg, heq⟩ := h
      have hgn : g = sg := by
        injection heq with h1 h2
      subst hgn
      have := List.mem_filter.mp hsg
      simpa using this.2
    · have := net_rank_mem_vpc raises region net _ h
      simp [net_rank] at this
  · intro r v hmem
    unfold destroy_networking at hmem
    simp only [List.append_assoc, List.mem_append] at hmem
    rcases hmem with h | h | h | h
    · have := net_rank_mem_nat region net.nat_gateways _ h
      simp [net_rank] at this
    · have := net_rank_mem_igw raises region net.internet_gateways _ h
      simp [net_rank] at this
    · have := net_rank_mem_sg region net.security_groups _ h
      simp [net_rank] at this
    · simp only [List.mem_flatMap] at h
      obtain ⟨vpc, hvpc, hmem2⟩ := h
      have h2 := mem_of_mem_issue_until_raise _ _ _ hmem2
      simp only [List.mem_append, List.mem_map, List.mem_singleton] at h2
      rcases h2 with ⟨s, _, heq⟩ | ⟨rt, _, heq⟩ | heq
      · cases heq
      · cases heq
      · have hv : v = vpc := by
          injection heq with h1 h2
        subst hv
        have := List.mem_filter.mp hvpc
        simpa using this.2

def kRegionE1 : String := "us-east-1"

/-- A concrete custom security group. -/
def sg_web : SecurityGroup := { groupId := "sg-1", groupName := "web" }

/-- The default security group of the concrete region. -/
def sg_default : SecurityGroup :=
  { groupId := "sg-0", groupName := kDefaultName }

/-- A concrete custom VPC. -/
def vpc_custom : Vpc := { vpcId := "vpc-1", isDefault := false }

/-- The default VPC of the concrete region. -/
def vpc_default : Vpc := { vpcId := "vpc-0", isDefault := true }

/-- A concrete regional networking inventory containing the default and a
custom security group, and the default and a custom VPC. -/
def net_sample : RegionNetworking :=
  { nat_gateways := [], internet_gateways := [],
    security_groups := [sg_default, sg_web],
    vpcs := [vpc_default, vpc_custom],
    subnets := fun _ => [], route_tables := fun _ => [] }

/-- No call ever raises. -/
def no_raises : InfraCall → Bool := fun _ => false

/-- Witness for C9 at a concrete inventory: the custom security group and
custom VPC that do appear in the trace are not the default ones. -/
theorem default_network_resources_never_deleted_witness :
    (InfraCall.delete_security_group kRegionE1 sg_web ∈
        destroy_networking no_raises kRegionE1 net_sample ∧
      InfraCall.delete_vpc kRegionE1 vpc_custom ∈
        destroy_networking no_raises kRegionE1 net_sample) ∧
    (sg_web.groupName ≠ kDefaultName ∧ vpc_custom.isDefault = false) :=
  ⟨⟨by decide, by decide⟩,
   ⟨(default_network_resources_never_deleted no_raises kRegionE1
       net_sample).1 kRegionE1 sg_web (by decide),
    (default_network_resources_never_deleted no_raises kRegionE1
       net_sample).2 kRegionE1 vpc_custom (by decide)⟩⟩

/-- Sorting by a numeric key yields a key-monotone list. -/
theorem pairwise_mono_mergeSort (p : String → Nat) (l : List String) :
    (l.mergeSort fun a b => decide (p a ≤ p b)).Pairwise
      fun a b => p a ≤ p b := by
  have h := @List.sorted_mergeSort String
    (fun a b => decide (p a ≤ p b))
    (fun a b c h1 h2 => by
      simp only [decide_eq_true_eq] at h1 h2 ⊢
      omega)
    (fun a b => by
      simp only [Bool.or_eq_true, decide_eq_true_eq]
      omega) l
  exact h.imp fun hab => by simpa using hab

/-- The infrastructure stack priority never exceeds 3. -/
theorem stack_priority_le_three (name : String) : stack_priority name ≤ 3 := by
  unfold stack_priority
  split
  · omega
  · split <;> omega

/-- A protected (Control Tower / landing-zone) name has priority 3. -/
theorem priority_three_of_protected (name : String)
    (h : is_protected_stack_name name = true) : stack_priority name = 3 := by
  simp [stack_priority, h]

/-- Priority 3 only arises from a protected name. -/
theorem protected_of_priority_three (name : String)
    (h : stack_priority name = 3) : is_protected_stack_name name = true := by
  by_cases hp : is_protected_stack_name name = true
  · exact hp
  · exfalso
    unfold stack_priority at h
    rw [if_neg hp] at h
    split at h <;> omega

/-- The sweeper stack priority never exceeds 2. -/
theorem stack_priority_sweeper_le_two (name : String) :
    stack_priority_sweeper name ≤ 2 := by
  unfold stack_priority_sweeper
  split
  · omega
  · split <;> omega

/-- A protected name has sweeper priority 2. -/
theorem sweeper_priority_two_of_protected (name : String)
    (h : is_protected_stack_name_sweeper name = true) :
    stack_priority_sweeper name = 2 := by
  simp [stack_priority_sweeper, h]

/-- Sweeper priority 2 only arises from a protected name. -/
theorem sweeper_protected_of_priority_two (name : String)
    (h : stack_priority_sweeper name = 2) :
    is_protected_stack_name_sweeper name = true := by
  by_cases hp : is_protected_stack_name_sweeper name = true
  · exact hp
  · exfalso
    unfold stack_priority_sweeper at h
    rw [if_neg hp] at h
    split at h <;> omega

/-- Claim C6: stack delete calls are issued in priority order — in the
infrastructure agent the delete trace is the priority-sorted list (ordinary
stacks first, stackset- constructs second, Control Tower / landing-zone
stacks last), and a stack whose name matches the protected patterns never
precedes a non-matching stack; the sweeper live delete order has the same
properties for its own priority tiers. -/
theorem stack_deletes_in_priority_order (region : String)
    (stack_names : List String) (preserved : String → Bool) :
    ((sorted_stacks_for_deletion stack_names).Pairwise
      fun a b => stack_priority a ≤ stack_priority b) ∧
    ((sorted_stacks_for_deletion stack_names).Pairwise
      fun a b => is_protected_stack_name a = true →
        is_protected_stack_name b = true) ∧
    (destroy_cloudformation_stacks region stack_names =
      (sorted_stacks_for_deletion stack_names).map
        (InfraCall.delete_stack region)) ∧
    ((sweeper_stack_delete_order preserved stack_names).Pairwise
      fun a b => stack_priority_sweeper a ≤ stack_priority_sweeper b) ∧
    ((sweeper_stack_delete_order preserved stack_names).Pairwise
      fun a b => is_protected_stack_name_sweeper a = true →
        is_protected_stack_name_sweeper b = true) := by
  have hmono : (sorted_stacks_for_deletion stack_names).Pairwise
      fun a b => stack_priority a ≤ stack_priority b :=
    pairwise_mono_mergeSort stack_priority stack_names
  have hsweep_sorted : (stack_names.mergeSort fun a b =>
      decide (stack_priority_sweeper a ≤ stack_priority_sweeper b)).Pairwise
      fun a b => stack_priority_sweeper a ≤ stack_priority_sweeper b :=
    pairwise_mono_mergeSort stack_priority_sweeper stack_names
  have hsweep_mono : (sweeper_stack_delete_order preserved
      stack_names).Pairwise
      fun a b => stack_priority_sweeper a ≤ stack_priority_sweeper b :=
    List.Pairwise.sublist (List.filter_sublist _) hsweep_sorted
  refine ⟨hmono, ?_, rfl, hsweep_mono, ?_⟩
  · refine hmono.imp ?_
    intro a b hab hpa
    have ha3 := priority_three_of_protected a hpa
    have hb3 := stack_priority_le_three b
    exact protected_of_priority_three b (by omega)
  · refine hsweep_mono.imp ?_
    intro a b hab hpa
    have ha2 := sweeper_priority_two_of_protected a hpa
    have hb2 := stack_priority_sweeper_le_two b
    exact sweeper_protected_of_priority_two b (by omega)

/-! ## Orchestrator phase sequencing

From `src/agents/closure/account_closure_orchestrator.py`
(`orchestrate_account_closure`, lines 117-141) and
`src/agents/closure/complete_closure_orchestrator.py`
(`run_comprehensive_nuke`, lines 88-126).  Both drivers are straight-line
code; they are modelled by their event traces: phase executions (with the
agents run in that phase) and barrier sleeps, in program order. -/

/-- One top-level orchestrator event. -/
inductive OrchEvent where
  | run_phase (agents : List String)
  | sleep_barrier (seconds : Nat)
deriving DecidableEq

def storage_script : String := "storage_destruction_agent.py"
def compute_script : String := "compute_destruction_agent.py"
def infra_script : String := "infrastructure_destruction_agent.py"
def cli_nuke_step : String := "run_cli_nuke"
def verify_step : String := "verify_account_empty"

/-- `AccountClosureOrchestrator.orchestrate_account_closure` (lines
117-141): phase 1 storage, phase 2 compute, one `time.sleep(30)` barrier
(line 136), phase 3 infrastructure.  There is no sleep between phases 1 and
2. -/
def orchestrate_account_closure : List OrchEvent :=
  [OrchEvent.run_phase [storage_script],
   OrchEvent.run_phase [compute_script],
   OrchEvent.sleep_barrier 30,
   OrchEvent.run_phase [infra_script]]

/-- `ClosureOrchestrator.run_comprehensive_nuke` (lines 88-126): phase 1
runs storage and compute in a worker pool, one `time.sleep(10)` pause (line
118), phase 2 the CLI nuke, phase 3 verification, with no sleep after phase
2. -/
def run_comprehensive_nuke : List OrchEvent :=
  [OrchEvent.run_phase [storage_script, compute_script],
   OrchEvent.sleep_barrier 10,
   OrchEvent.run_phase [cli_nuke_step],
   OrchEvent.run_phase [verify_step]]

/-- Whether an event is a phase execution. -/
def is_phase_event : OrchEvent → Bool
  | OrchEvent.run_phase _ => true
  | OrchEvent.sleep_barrier _ => false

/-- Whether an event is a barrier sleep. -/
def is_barrier_event : OrchEvent → Bool
  | OrchEvent.run_phase _ => false
  | OrchEvent.sleep_barrier _ => true

/-- The property claimed by the specification, stated over a trace: a
barrier sleep occurs between every pair of consecutive phases, hence no two
phase events are ever adjacent. -/
def every_phase_boundary_barriered (t : List OrchEvent) : Prop :=
  ∀ i, ((t.get? i).map is_phase_event = some true) →
    ((t.get? (i + 1)).map is_phase_event = some true) → False

/-- Counterexample to claim C7 as stated: in the account closure
orchestrator the storage phase (index 0) is immediately followed by the
compute phase (index 1) with no barrier sleep between them. -/
theorem storage_compute_boundary_has_no_barrier :
    ¬ every_phase_boundary_barriered orchestrate_account_closure := by
  intro h
  exact h 0 rfl rfl

/-- Claim C7 (amended): each top-level driver inserts exactly one fixed
barrier sleep, not one per phase boundary — the account closure orchestrator
sleeps 30 seconds only between the compute and infrastructure phases (its
storage and compute phases are back to back), and the comprehensive
orchestrator sleeps 10 seconds only between its parallel phase 1 and the CLI
nuke phase (none before verification). -/
theorem single_barrier_per_driver :
    (orchestrate_account_closure.countP is_barrier_event = 1 ∧
     orchestrate_account_closure.get? 0 =
       some (OrchEvent.run_phase [storage_script]) ∧
     orchestrate_account_closure.get? 1 =
       some (OrchEvent.run_phase [compute_script]) ∧
     orchestrate_account_closure.get? 2 =
       some (OrchEvent.sleep_barrier 30) ∧
     orchestrate_account_closure.get? 3 =
       some (OrchEvent.run_phase [infra_script])) ∧
    (run_comprehensive_nuke.countP is_barrier_event = 1 ∧
     run_comprehensive_nuke.get? 1 = some (OrchEvent.sleep_barrier 10) ∧
     run_comprehensive_nuke.get? 2 =
       some (OrchEvent.run_phase [cli_nuke_step]) ∧
     run_comprehensive_nuke.get? 3 =
       some (OrchEvent.run_phase [verify_step])) := by
  decide
